import Mathlib

/-!
Shallow embedding of the profiling orchestration core of tslumen
(src/tslumen/profile/base.py), together with proofs of the specified
properties of valid_timeseries, ProfilingFunction and BundledProfiler.

Modelling conventions:
  * Python values appearing in configurations and payloads are modelled by
    the inductive type Value; inspect.Parameter.empty (the marker for a
    missing default) is modelled by Value.empty.
  * Type annotations are modelled by Ann; a parameter with no annotation
    carries Ann.missing, which stands for the class inspect.Parameter.empty.
    Note that in Python that class object is truthy, which is reflected in
    Ann.truthy below.
  * datetime.now() readings are supplied externally as natural numbers; the
    monotonicity of the wall clock is a hypothesis of the timing theorems.
  * pandas DataFrames are modelled by RawFrame: an ordered list of columns
    (label plus a numeric-dtype flag) and an index.  Cell values are
    abstracted away: no claim under verification depends on them, and the
    behaviour of a wrapped profiling function is an arbitrary function of
    the data argument, so no generality is lost.
  * Raising an exception is modelled by the Outcome/Except types; the
    wrapper's except-Exception handler is modelled as catching every
    modelled exception.
-/

namespace Tslumen

/-- Python values used in configurations and result payloads. -/
inductive Value where
  | int (n : Int)
  | str (s : String)
  | bool (b : Bool)
  | none
  | empty  -- inspect.Parameter.empty, the marker used for a missing default
  deriving DecidableEq, Repr

/-- Model of a type annotation on a Python parameter. -/
inductive Ann where
  | missing               -- unannotated: par.annotation is inspect.Parameter.empty
  | noneType              -- the annotation None
  | series                -- pandas.Series
  | frame                 -- pandas.DataFrame
  | union (args : List Ann)  -- typing.Union of the listed arguments
  | other (tag : String)  -- any other type (int, str, ...)

/-- Python truthiness of an annotation, as tested by assert par.annotation.
    A missing annotation is inspect.Parameter.empty, which is a class and
    therefore truthy; only the annotation None is falsy. -/
def Ann.truthy : Ann → Bool
  | .noneType => false
  | _ => true

/-- Model of typing_inspect.get_args for unions, identity list otherwise
    (the data_types list computed in ProfilingFunction.init). -/
def dataTypes : Ann → List Ann
  | .union args => args
  | a => [a]

def isSeriesT : Ann → Bool
  | .series => true
  | _ => false

def isFrameT : Ann → Bool
  | .frame => true
  | _ => false

/-- Column label of a pandas DataFrame: a string, or some non-string label. -/
inductive ColName where
  | str (s : String)
  | nonstr (tag : String)
  deriving DecidableEq, Repr

def ColName.isStr : ColName → Bool
  | .str _ => true
  | _ => false

def ColName.strVal : ColName → String
  | .str s => s
  | .nonstr _ => ""

/-- One column of a DataFrame: its label and whether its dtype is numeric
    (i.e. whether select_dtypes("number") keeps it). -/
structure RawColumn where
  name : ColName
  numeric : Bool
  deriving DecidableEq, Repr

/-- The row index of a DataFrame: a DatetimeIndex with its timestamps, or
    any other index with its row count. -/
inductive FrameIndex where
  | datetime (times : List Int)
  | generic (nrows : Nat)
  deriving DecidableEq, Repr

/-- Model of a pandas DataFrame (cell values abstracted away). -/
structure RawFrame where
  cols : List RawColumn
  index : FrameIndex
  deriving DecidableEq, Repr

def RawFrame.nrows (df : RawFrame) : Nat :=
  match df.index with
  | .datetime ts => ts.length
  | .generic n => n

/-- Model of a pandas Series as seen by the wrapper: only its name matters
    (str(data.name or "") is all the wrapper reads from it). -/
structure SeriesData where
  name : Option String
  deriving DecidableEq, Repr

/-- A Python object handed to a profiling function or to the validator. -/
inductive Data where
  | frame (df : RawFrame)
  | series (s : SeriesData)
  | other (v : Value)
  deriving DecidableEq, Repr

def Data.isFrame : Data → Bool
  | .frame _ => true
  | _ => false

/-- Model of str(getattr(data, "name", "") or "") on the series branch. -/
def Data.pyName : Data → String
  | .series s => s.name.getD ""
  | _ => ""

/-- The behaviour of one invocation of the wrapped Python function: either a
    normal return carrying the value and the warnings recorded by
    warnings.catch_warnings, or an exception raised after emitting some
    warnings (which the context manager then discards). -/
inductive Outcome where
  | normal (v : Value) (warns : List String)
  | raised (e : String) (warns : List String)

/-- The ProfileException wrapper: ProfileException(e) preserving the
    original exception e. -/
inductive PyExc where
  | profileException (orig : String)
  deriving DecidableEq, Repr

/-- One declared parameter of a Python function, as reported by
    inspect.signature: its name, annotation and default. -/
structure Param where
  name : String
  ann : Ann
  default : Value

/-- A plain Python function: its dunder name, signature and behaviour. -/
structure PyFunction where
  fname : String
  params : List Param
  run : Data → List (String × Value) → Outcome

/-- The sorted index produced by DataFrame.sort_index() (ascending). -/
def sortTimes (ts : List Int) : List Int :=
  List.insertionSort (· ≤ ·) ts

/-- Successive gaps of a timestamp list. -/
def gaps : List Int → List Int
  | a :: b :: rest => (b - a) :: gaps (b :: rest)
  | _ => []

/-- Modelled from the external library: pandas DatetimeIndex.inferred_freq
    (truthiness thereof).  pandas needs at least 3 points and here a
    frequency is inferable exactly when the spacing is constant and
    positive. -/
def inferredFreq (ts : List Int) : Bool :=
  decide (3 ≤ ts.length) &&
    (match gaps ts with
     | [] => false
     | g :: gs => decide (0 < g) && gs.all (fun x => x == g))

/-- The validated table returned by valid_timeseries: only the numeric
    columns (their names, all known to be strings) and the sorted
    timestamps. -/
structure ValidFrame where
  cols : List String
  times : List Int
  deriving DecidableEq, Repr

/-- Embedding of tslumen.profile.base.valid_timeseries.  The source checks,
    in order: isinstance DataFrame; all column names str; after
    select_dtypes("number").sort_index(), non-empty in both dimensions;
    DatetimeIndex; inferred_freq truthy; then returns the filtered sorted
    copy. -/
def valid_timeseries (obj : Data) : Except String ValidFrame :=
  match obj with
  | .frame df =>
    if !(df.cols.all (fun c => c.name.isStr)) then
      .error "All column names must be str"
    else
      let numCols := df.cols.filter (fun c => c.numeric)
      match df.index with
      | .generic n =>
        if numCols.length == 0 || n == 0 then .error "DataFrame cannot be empty"
        else .error "Expecting DataFrame index to be a pandas.DateTimeIndex"
      | .datetime ts =>
        let sorted := sortTimes ts
        if numCols.length == 0 || sorted.length == 0 then
          .error "DataFrame cannot be empty"
        else if !(inferredFreq sorted) then
          .error "Could not infer the DataFrames frequency"
        else
          .ok { cols := numCols.map (fun c => c.name.strVal), times := sorted }
  | _ => .error "Expecting df to be a pandas.DataFrame"

/-- Embedding of ProfileResult (and, with a different payload type, of
    BundledResult, which subclasses it overriding only the result field).
    The defaults record what ProfileResult.init assigns; scope and target
    are Options because the source leaves those attributes unset until the
    call-time try block assigns them (none models an unset attribute).
    The end field is spelled endT because end is a Lean keyword. -/
structure ProfileResultG (α : Type) where
  name : String := ""
  scope : Option String := Option.none
  target : Option String := Option.none
  start : Nat := 0
  endT : Nat := 0
  success : Bool := true
  warnings : List String := []
  exception : Option PyExc := Option.none
  result : α

/-- Embedding of ProfileResult.dunder-bool: truthiness equals success. -/
def ProfileResultG.toBool (r : ProfileResultG α) : Bool := r.success

/-- A profiling result whose payload is an arbitrary value (none models the
    result attribute being unset, some Value.none models Python None). -/
def ProfileResult := ProfileResultG (Option Value)

/-- Embedding of the ProfilingFunction descriptor: the wrapped function,
    the series/frame flags inferred from the first annotation, the fields
    of the synthesized Config dataclass (name and default of every
    remaining parameter, in order) and the name of the data parameter. -/
structure ProfilingFunction where
  fn : PyFunction
  is_pseries : Bool
  is_pframe : Bool
  configDefaults : List (String × Value)
  parData : String

/-- The loop body of ProfilingFunction.init for the parameters after the
    first: assert the annotation truthy, then collect (name, default) into
    the synthesized Config dataclass. -/
def checkRest : List Param → Except String (List (String × Value))
  | [] => .ok []
  | p :: rest =>
    if !p.ann.truthy then .error ("Parameter " ++ p.name ++ " must be annotated")
    else
      match checkRest rest with
      | .error e => .error e
      | .ok cfgs => .ok ((p.name, p.default) :: cfgs)

/-- Embedding of ProfilingFunction.init (decoration time).  An error models
    a failed assert.  Note the annotation assert on the first parameter is
    vacuous for a missing annotation (Ann.missing is truthy, exactly as
    inspect.Parameter.empty is a truthy class in Python); an unannotated
    first parameter is still rejected by the Series/DataFrame assert. -/
def ProfilingFunction.make (fn : PyFunction) : Except String ProfilingFunction :=
  match fn.params with
  | [] => .error "Profiling function requires at least 1 argument, the timeseries"
  | p0 :: rest =>
    if !p0.ann.truthy then .error ("Parameter " ++ p0.name ++ " must be annotated")
    else
      let dts := dataTypes p0.ann
      let isS := dts.any isSeriesT
      let isF := dts.any isFrameT
      if !(isS || isF) then
        .error ("First argument " ++ p0.name ++ " must be a Series or DataFrame")
      else
        match checkRest rest with
        | .error e => .error e
        | .ok cfgs =>
          .ok { fn := fn, is_pseries := isS, is_pframe := isF,
                configDefaults := cfgs, parData := p0.name }

/-- Whether sig.bind(data, **kwargs) succeeds: every keyword argument names
    a declared non-first parameter, and every non-first parameter without a
    default is supplied. -/
def bindOk (params : List Param) (kwargs : List (String × Value)) : Bool :=
  match params with
  | [] => false
  | _ :: rest =>
    kwargs.all (fun kv => rest.any (fun p => p.name == kv.1)) &&
      rest.all (fun p => !(p.default == Value.empty) || kwargs.any (fun kv => kv.1 == p.name))

/-- Embedding of ProfilingFunction.call.  The two clock readings t0 (before
    the try block) and t1 (in the finally block) are supplied by the
    environment.  The three branches are: successful bind and normal
    return; successful bind and a raised exception (caught, recorded,
    warnings discarded by the exiting context manager); failed bind (the
    TypeError from sig.bind is caught before scope and target are
    assigned). -/
def ProfilingFunction.call (pf : ProfilingFunction) (data : Data)
    (kwargs : List (String × Value)) (t0 t1 : Nat) : ProfileResult :=
  if bindOk pf.fn.params kwargs then
    let scope := if data.isFrame then "frame" else "series"
    let target := if scope == "series" then data.pyName else ""
    match pf.fn.run data kwargs with
    | .normal v ws =>
      { name := pf.fn.fname, scope := some scope, target := some target,
        start := t0, endT := t1, success := true, warnings := ws,
        exception := Option.none, result := some v }
    | .raised e _ws =>
      { name := pf.fn.fname, scope := some scope, target := some target,
        start := t0, endT := t1, success := false, warnings := [],
        exception := some (.profileException e), result := some Value.none }
  else
    { name := pf.fn.fname, scope := Option.none, target := Option.none,
      start := t0, endT := t1, success := false, warnings := [],
      exception := some (.profileException "TypeError"), result := some Value.none }

/-! Insertion-ordered dictionaries, modelling Python dicts: assigning to an
    existing key updates the value in place, assigning to a fresh key
    appends it. -/

def dictInsert (d : List (String × α)) (k : String) (v : α) : List (String × α) :=
  if (d.map Prod.fst).contains k then
    d.map (fun kv => if kv.1 = k then (k, v) else kv)
  else
    d ++ [(k, v)]

/-- Python dict lookup d[k] (the first, i.e. only, binding of k). -/
def dlookup (d : List (String × α)) (k : String) : Option α :=
  (d.find? (fun kv => kv.1 == k)).map (fun kv => kv.2)

/-- The key list of a dictionary. -/
def keys (d : List (String × α)) : List String := d.map Prod.fst

/-- A dict built by inserting the pairs of l in order (the semantics of a
    Python dict comprehension). -/
def dictOf (l : List (String × α)) : List (String × α) :=
  l.foldl (fun d kv => dictInsert d kv.1 kv.2) []

/-! The BundledProfiler embedding. -/

/-- The profiler name under which a descriptor is keyed: p.fn.dunder-name. -/
def pname (p : ProfilingFunction) : String := p.fn.fname

/-- The filtering clause selected by get_profilers' target argument
    (the source asserts target is one of series, frame, any; only those
    three are ever passed here). -/
def clauseFor (target : String) (p : ProfilingFunction) : Bool :=
  if target == "series" then p.is_pseries
  else if target == "frame" then p.is_pframe
  else true

/-- Embedding of BundledProfiler.get_profilers: the dict comprehension
    keyed by function name over the filtered fixed profiler list. -/
def get_profilers (ps : List ProfilingFunction) (target : String) :
    List (String × ProfilingFunction) :=
  dictOf ((ps.filter (clauseFor target)).map (fun p => (pname p, p)))

/-- Embedding of BundledProfiler.get_config_defaults (as_dict=True): for
    every profiler, asdict of an instance of its Config dataclass built
    with no arguments, i.e. the declared defaults. -/
def get_config_defaults (ps : List ProfilingFunction) :
    List (String × List (String × Value)) :=
  (get_profilers ps "any").map (fun np => (np.1, np.2.configDefaults))

/-- An instance of a BundledProfiler subclass: the subclass name, its fixed
    profiler list and the instance config resolved at construction. -/
structure BundledProfiler where
  name : String
  profilers : List ProfilingFunction
  config : List (String × List (String × Value))

/-- Embedding of BundledProfiler.init: the config starts as the defaults
    and each override entry is assigned wholesale into the dict
    (self.config[p] = cfg), overrides modelled as plain mappings. -/
def bundledInit (nm : String) (ps : List ProfilingFunction)
    (overrides : List (String × List (String × Value))) : BundledProfiler :=
  { name := nm, profilers := ps,
    config := overrides.foldl (fun cfg kv => dictInsert cfg kv.1 kv.2)
      (get_config_defaults ps) }

/-- One row of the exec_details ledger (the hash-Runs column is spelled
    Runs, the End column endT). -/
structure LedgerRow where
  Profiler : String
  Scope : String
  Target : String
  Start : Nat
  endT : Nat
  Duration : Int
  Succeeded : Bool
  Exceptions : Option PyExc
  Runs : Nat
  deriving DecidableEq, Repr

/-- The triple returned by the local function run inside profile. -/
structure ExecTriple where
  name : String
  payload : Option Value
  row : LedgerRow
  deriving DecidableEq, Repr

/-- One planned execution unit: descriptor, data slice, resolved config. -/
def PlanUnit := ProfilingFunction × Data × List (String × Value)

/-- Embedding of the local function run inside BundledProfiler.profile:
    invoke the wrapped function and build the ledger row.  Accessing
    pr.scope or pr.target when the wrapper left them unset raises an
    AttributeError, which propagates. -/
def runUnit (u : PlanUnit) (t0 t1 : Nat) : Except String ExecTriple :=
  let pr := u.1.call u.2.1 u.2.2 t0 t1
  match pr.scope, pr.target with
  | some sc, some tg =>
    .ok { name := pr.name, payload := pr.result,
          row := { Profiler := pr.name, Scope := sc, Target := tg,
                   Start := pr.start, endT := pr.endT,
                   Duration := (pr.endT : Int) - (pr.start : Int),
                   Succeeded := pr.success, Exceptions := pr.exception,
                   Runs := 1 } }
  | _, _ => .error "AttributeError: scope"

/-- The validated frame handed back to frame-scoped profilers. -/
def ValidFrame.toRaw (v : ValidFrame) : RawFrame :=
  { cols := v.cols.map (fun s => { name := ColName.str s, numeric := true }),
    index := FrameIndex.datetime v.times }

/-- Monadic map over Except, short-circuiting on the first error (the
    evaluation of a Python list comprehension whose body may raise). -/
def exceptMap (f : α → Except String β) : List α → Except String (List β)
  | [] => .ok []
  | a :: as =>
    match f a with
    | .error e => .error e
    | .ok b =>
      match exceptMap f as with
      | .error e => .error e
      | .ok bs => .ok (b :: bs)

/-- Embedding of the plan list comprehension in profile: one unit per
    frame-scoped profiler on the whole table, plus one unit per
    series-scoped profiler per column; self.config[name] raises KeyError
    when absent. -/
def planFor (bp : BundledProfiler) (df : ValidFrame) : Except String (List PlanUnit) :=
  match exceptMap (fun np =>
      match dlookup bp.config np.1 with
      | some c => .ok ((np.2, Data.frame df.toRaw, c) : PlanUnit)
      | Option.none => .error "KeyError") (get_profilers bp.profilers "frame") with
  | .error e => .error e
  | .ok fps =>
    match exceptMap (fun np =>
        match dlookup bp.config np.1 with
        | some c => .ok (np.2, c)
        | Option.none => .error "KeyError") (get_profilers bp.profilers "series") with
    | .error e => .error e
    | .ok sps =>
      .ok (fps ++ sps.flatMap (fun fc =>
        df.cols.map (fun col => ((fc.1, Data.series ⟨some col⟩, fc.2) : PlanUnit))))

/-- Model of Scheduler.run feeding each unit to runUnit: tasks are executed
    exactly once and the returned list matches submission order (the
    documented Scheduler contract); a task exception is re-raised to the
    caller.  The clock readings of the i-th unit are times i. -/
def schedulerRun (times : Nat → Nat × Nat) : Nat → List PlanUnit →
    Except String (List ExecTriple)
  | _, [] => .ok []
  | i, u :: us =>
    match runUnit u (times i).1 (times i).2 with
    | .error e => .error e
    | .ok t =>
      match schedulerRun times (i + 1) us with
      | .error e => .error e
      | .ok ts => .ok (t :: ts)

/-- Embedding of result.result.series[target][name] = res: KeyError when
    the target is not a key of the series dict. -/
def seriesUpdate (d : List (String × List (String × Option Value)))
    (tgt nm : String) (v : Option Value) :
    Except String (List (String × List (String × Option Value))) :=
  if (d.map Prod.fst).contains tgt then
    .ok (d.map (fun kv => if kv.1 = tgt then (kv.1, dictInsert kv.2 nm v) else kv))
  else
    .error "KeyError"

/-- The collection loop of profile: frame payloads into the frame dict,
    series payloads into the per-column dicts. -/
def collectTriples (fr : List (String × Option Value))
    (se : List (String × List (String × Option Value))) :
    List ExecTriple →
    Except String (List (String × Option Value) × List (String × List (String × Option Value)))
  | [] => .ok (fr, se)
  | t :: ts =>
    if t.row.Scope == "frame" then
      collectTriples (dictInsert fr t.name t.payload) se ts
    else
      match seriesUpdate se t.row.Target t.name t.payload with
      | .error e => .error e
      | .ok se2 => collectTriples fr se2 ts

/-- Embedding of BundledResultDetails. -/
structure BundledResultDetails where
  frame : List (String × Option Value)
  series : List (String × List (String × Option Value))
  exec_details : List LedgerRow
  config : List (String × List (String × Value))

/-- Embedding of BundledResult: a ProfileResult whose payload is the
    details record. -/
def BundledResult := ProfileResultG BundledResultDetails

/-- Embedding of BundledProfiler.profile.  T0 and T1 are the overall clock
    readings; times supplies the per-unit readings.  The success,
    exception and warnings fields of the returned BundledResult are the
    ones assigned by ProfileResult.init (the structure defaults): profile
    never writes them. -/
def BundledProfiler.profile (bp : BundledProfiler) (obj : Data)
    (times : Nat → Nat × Nat) (T0 T1 : Nat) : Except String BundledResult :=
  match valid_timeseries obj with
  | .error e => .error e
  | .ok df =>
    match planFor bp df with
    | .error e => .error e
    | .ok plan =>
      match schedulerRun times 0 plan with
      | .error e => .error e
      | .ok executed =>
        match collectTriples [] (dictOf (df.cols.map (fun c => (c, [])))) executed with
        | .error e => .error e
        | .ok frse =>
          .ok { name := bp.name, scope := some "both", target := some "",
                start := T0, endT := T1,
                result := { frame := frse.1, series := frse.2,
                            exec_details := executed.map (fun t => t.row),
                            config := bp.config } }

/-! Statement-side definitions: predicates used to phrase the claims, and
    concrete fixtures for the witnesses. -/

def FrameIndex.isDatetime : FrameIndex → Bool
  | .datetime _ => true
  | _ => false

/-- The validation-failure conditions for a DataFrame input, as the spec
    enumerates them: some column name not a string; zero numeric columns;
    zero rows; index not time-typed; no frequency inferable from the
    sorted index. -/
def specFrameFailure (df : RawFrame) : Prop :=
  df.cols.all (fun c => c.name.isStr) = false ∨
  (df.cols.filter (fun c => c.numeric)).length = 0 ∨
  df.nrows = 0 ∨
  df.index.isDatetime = false ∨
  (∃ ts, df.index = FrameIndex.datetime ts ∧ inferredFreq (sortTimes ts) = false)

/-- The validation-failure conditions of the spec over an arbitrary input:
    a non-DataFrame always fails. -/
def specValidationFailure : Data → Prop
  | .frame df => specFrameFailure df
  | _ => True

/-- The data argument matches the declared first-parameter type of the
    wrapped function. -/
def firstArgMatches (pf : ProfilingFunction) : Data → Prop
  | .frame _ => pf.is_pframe = true
  | .series _ => pf.is_pseries = true
  | .other _ => False

/-- The value of the last binding of a key in an override list (later
    entries of the mapping overwrite earlier ones on insertion). -/
def lastAssoc (l : List (String × α)) (k : String) : Option α :=
  match l with
  | [] => Option.none
  | kv :: rest =>
    match lastAssoc rest k with
    | some v => some v
    | Option.none => if kv.1 = k then some kv.2 else Option.none

/-- Whether decoration of a function succeeds. -/
def makeSucceeds (fn : PyFunction) : Bool :=
  match ProfilingFunction.make fn with
  | .ok _ => true
  | .error _ => false

/-! Concrete fixtures. -/

/-- A series-scoped profiler with one tunable parameter, returning the
    series name. -/
def serOk : ProfilingFunction :=
  { fn := { fname := "fser",
            params := [ { name := "data", ann := Ann.series, default := Value.empty },
                        { name := "a", ann := Ann.other "int", default := Value.int 0 } ],
            run := fun d _ => Outcome.normal (Value.str d.pyName) [] },
    is_pseries := true, is_pframe := false,
    configDefaults := [("a", Value.int 0)], parData := "data" }

/-- A frame-scoped profiler that always succeeds. -/
def frOk : ProfilingFunction :=
  { fn := { fname := "ffr",
            params := [ { name := "data", ann := Ann.frame, default := Value.empty } ],
            run := fun _ _ => Outcome.normal (Value.int 7) [] },
    is_pseries := false, is_pframe := true,
    configDefaults := [], parData := "data" }

/-- A series-scoped profiler that emits a warning and then raises. -/
def serFail : ProfilingFunction :=
  { fn := { fname := "fboom",
            params := [ { name := "data", ann := Ann.series, default := Value.empty } ],
            run := fun _ _ => Outcome.raised "ZeroDivisionError" ["w1"] },
    is_pseries := true, is_pframe := false,
    configDefaults := [], parData := "data" }

/-- A profiler accepting both a Series and a DataFrame. -/
def pfBoth : ProfilingFunction :=
  { fn := { fname := "fboth",
            params := [ { name := "data", ann := Ann.union [Ann.series, Ann.frame],
                          default := Value.empty } ],
            run := fun _ _ => Outcome.normal Value.none [] },
    is_pseries := true, is_pframe := true,
    configDefaults := [], parData := "data" }

/-- A series profiler with two tunable parameters a and b (defaults 0 and
    2), for the configuration-override claims. -/
def pfAB : ProfilingFunction :=
  { fn := { fname := "fab",
            params := [ { name := "data", ann := Ann.series, default := Value.empty },
                        { name := "a", ann := Ann.other "int", default := Value.int 0 },
                        { name := "b", ann := Ann.other "int", default := Value.int 2 } ],
            run := fun _ _ => Outcome.normal Value.none [] },
    is_pseries := true, is_pframe := false,
    configDefaults := [("a", Value.int 0), ("b", Value.int 2)], parData := "data" }

/-- A function whose second parameter has no type annotation, against the
    wrap-time validation claim. -/
def fnUnannotatedSecond : PyFunction :=
  { fname := "fn_unann",
    params := [ { name := "data", ann := Ann.series, default := Value.empty },
                { name := "extra", ann := Ann.missing, default := Value.empty } ],
    run := fun _ _ => Outcome.normal Value.none [] }

/-- A one-column DataFrame with an unsorted daily DatetimeIndex. -/
def rawF : RawFrame :=
  { cols := [ { name := ColName.str "a", numeric := true } ],
    index := FrameIndex.datetime [2, 0, 1] }

/-- A bundled profiler instance with one frame profiler and one failing
    series profiler, default configuration. -/
def bpEx : BundledProfiler := bundledInit "Dummy" [frOk, serFail] []

/-- Per-unit clock readings for the fixture run. -/
def timesEx : Nat → Nat × Nat := fun i => (2 * i, 2 * i + 1)

/-- The profiler list for the filter-exhaustiveness witness. -/
def ex8 : List ProfilingFunction := [frOk, serFail, pfBoth]

/-- The override mapping for the configuration witnesses. -/
def ovEx : List (String × List (String × Value)) := [("fab", [("a", Value.int 1)])]

/-- The plan built by profile for the fixture instance and table. -/
def planEx : List PlanUnit :=
  [ (frOk, Data.frame { cols := [ { name := ColName.str "a", numeric := true } ],
                        index := FrameIndex.datetime [0, 1, 2] }, []),
    (serFail, Data.series { name := some "a" }, []) ]

/-- The bundled result of the fixture run. -/
def rEx : BundledResult :=
  { name := "Dummy", scope := some "both", target := some "",
    start := 100, endT := 101, success := true, warnings := [],
    exception := Option.none,
    result := { frame := [("ffr", some (Value.int 7))],
                series := [("a", [("fboom", some Value.none)])],
                exec_details :=
                  [ { Profiler := "ffr", Scope := "frame", Target := "",
                      Start := 0, endT := 1, Duration := 1, Succeeded := true,
                      Exceptions := Option.none, Runs := 1 },
                    { Profiler := "fboom", Scope := "series", Target := "a",
                      Start := 2, endT := 3, Duration := 1, Succeeded := false,
                      Exceptions := some (PyExc.profileException "ZeroDivisionError"),
                      Runs := 1 } ],
                config := [("ffr", []), ("fboom", [])] } }

/-! Theorems. -/

/-- On a successful bind, the wrapper derives scope from the dynamic type
    of the data argument and target from its name. -/
theorem call_scope_target (pf : ProfilingFunction) (data : Data)
    (kwargs : List (String × Value)) (t0 t1 : Nat)
    (hb : bindOk pf.fn.params kwargs = true) :
    (pf.call data kwargs t0 t1).scope =
      some (if data.isFrame then "frame" else "series") ∧
    (pf.call data kwargs t0 t1).target =
      some (if data.isFrame then "" else data.pyName) := by
  unfold ProfilingFunction.call
  rcases hfr : data.isFrame <;>
    cases hr : pf.fn.run data kwargs <;>
      simp [hb, hfr, hr]

/-- C1.  For every wrapped function, data argument matching the declared
    first-parameter type, and binding keyword arguments, the call returns
    a ProfileResult (the embedding of call is total: no exception
    escapes); its success field is true exactly when the wrapped function
    returned normally, and on a raise the payload is Python None and the
    exception field holds the original exception wrapped in a
    ProfileException. -/
theorem C1_never_throw_wrapper (pf : ProfilingFunction) (data : Data)
    (kwargs : List (String × Value)) (t0 t1 : Nat)
    (_hm : firstArgMatches pf data)
    (hb : bindOk pf.fn.params kwargs = true) :
    ((pf.call data kwargs t0 t1).success = true ↔
      ∃ v ws, pf.fn.run data kwargs = Outcome.normal v ws) ∧
    (∀ e ws, pf.fn.run data kwargs = Outcome.raised e ws →
      (pf.call data kwargs t0 t1).result = some Value.none ∧
      (pf.call data kwargs t0 t1).exception = some (PyExc.profileException e)) := by
  unfold ProfilingFunction.call
  cases hr : pf.fn.run data kwargs with
  | normal v ws =>
    constructor
    · simp [hb]
    · intro e ws' h
      cases h
  | raised e ws =>
    constructor
    · simp [hb]
    · intro e' ws' h
      cases h
      simp [hb]

/-- Witness for C1 at the failing series profiler. -/
theorem C1_witness :
    (serFail.call (Data.series { name := some "x" }) [] 0 1).result = some Value.none ∧
    (serFail.call (Data.series { name := some "x" }) [] 0 1).exception =
      some (PyExc.profileException "ZeroDivisionError") :=
  (C1_never_throw_wrapper serFail (Data.series { name := some "x" }) [] 0 1
    (by rfl) (by rfl)).2 "ZeroDivisionError" ["w1"] (by rfl)

/-- C6.  Scope and target derivation: a frame argument yields scope frame
    and empty target; a named series yields scope series and the series
    name as target; an unnamed series yields scope series and empty
    target. -/
theorem C6_scope_target_derivation (pf : ProfilingFunction) (df : RawFrame)
    (s : String) (kwargs : List (String × Value)) (t0 t1 : Nat)
    (hb : bindOk pf.fn.params kwargs = true) :
    ((pf.call (Data.frame df) kwargs t0 t1).scope = some "frame" ∧
     (pf.call (Data.frame df) kwargs t0 t1).target = some "") ∧
    ((pf.call (Data.series { name := some s }) kwargs t0 t1).scope = some "series" ∧
     (pf.call (Data.series { name := some s }) kwargs t0 t1).target = some s) ∧
    ((pf.call (Data.series { name := Option.none }) kwargs t0 t1).scope = some "series" ∧
     (pf.call (Data.series { name := Option.none }) kwargs t0 t1).target = some "") := by
  refine ⟨?_, ?_, ?_⟩ <;>
    [have h := call_scope_target pf (Data.frame df) kwargs t0 t1 hb;
     have h := call_scope_target pf (Data.series { name := some s }) kwargs t0 t1 hb;
     have h := call_scope_target pf (Data.series { name := Option.none }) kwargs t0 t1 hb] <;>
    simpa [Data.isFrame, Data.pyName] using h

/-- Witness for C6 at the series profiler and a named series. -/
theorem C6_witness :
    (serOk.call (Data.series { name := some "alpha" }) [] 0 1).scope = some "series" ∧
    (serOk.call (Data.series { name := some "alpha" }) [] 0 1).target = some "alpha" :=
  (C6_scope_target_derivation serOk rawF "alpha" [] 0 1 (by rfl)).2.1

/-- C7.  Regardless of outcome, the result carries the clock reading taken
    before the invocation as start and the one taken in the finally block
    as end; under a monotone clock end is at least start. -/
theorem C7_timing_invariant (pf : ProfilingFunction) (data : Data)
    (kwargs : List (String × Value)) (t0 t1 : Nat) (hclock : t0 ≤ t1) :
    (pf.call data kwargs t0 t1).start = t0 ∧
    (pf.call data kwargs t0 t1).endT = t1 ∧
    (pf.call data kwargs t0 t1).start ≤ (pf.call data kwargs t0 t1).endT := by
  unfold ProfilingFunction.call
  by_cases hb : bindOk pf.fn.params kwargs <;>
    cases hr : pf.fn.run data kwargs <;>
      simp [hb, hr, hclock]

/-- Witness for C7 on the failing profiler. -/
theorem C7_witness :
    (serFail.call (Data.series { name := some "x" }) [] 3 5).start = 3 ∧
    (serFail.call (Data.series { name := some "x" }) [] 3 5).endT = 5 ∧
    (serFail.call (Data.series { name := some "x" }) [] 3 5).start ≤
      (serFail.call (Data.series { name := some "x" }) [] 3 5).endT :=
  C7_timing_invariant serFail (Data.series { name := some "x" }) [] 3 5 (by decide)

/-- C10.  When the wrapped function raises, the returned failed result has
    an empty warnings list: whatever warnings were emitted before the
    raise are discarded, because the captured records are copied only on
    the normal-return path. -/
theorem C10_warnings_discarded_on_raise (pf : ProfilingFunction) (data : Data)
    (kwargs : List (String × Value)) (t0 t1 : Nat) (e : String) (ws : List String)
    (hb : bindOk pf.fn.params kwargs = true)
    (hr : pf.fn.run data kwargs = Outcome.raised e ws) :
    (pf.call data kwargs t0 t1).warnings = [] := by
  unfold ProfilingFunction.call
  simp [hb, hr]

/-- Witness for C10: the failing profiler emits warning w1 before raising,
    yet the failed result carries no warnings. -/
theorem C10_witness :
    (serFail.call (Data.series { name := some "x" }) [] 0 1).warnings = [] :=
  C10_warnings_discarded_on_raise serFail (Data.series { name := some "x" }) [] 0 1
    "ZeroDivisionError" ["w1"] (by rfl) (by rfl)

/-! Lemmas about insertion-ordered dictionaries. -/

theorem contains_iff_mem_keys {α : Type} (d : List (String × α)) (k : String) :
    (d.map Prod.fst).contains k = true ↔ k ∈ d.map Prod.fst := by
  simp [List.contains, List.elem_iff]

theorem map_fst_update {α : Type} (d : List (String × α)) (k : String) (v : α) :
    (d.map (fun kv => if kv.1 = k then (k, v) else kv)).map Prod.fst = d.map Prod.fst := by
  induction d with
  | nil => rfl
  | cons kv rest ih => by_cases h : kv.1 = k <;> simp [h, ih]

theorem keys_dictInsert {α : Type} (d : List (String × α)) (k : String) (v : α) :
    keys (dictInsert d k v) =
      if k ∈ keys d then keys d else keys d ++ [k] := by
  unfold dictInsert keys
  by_cases h : k ∈ d.map Prod.fst
  · rw [if_pos ((contains_iff_mem_keys d k).mpr h), if_pos h]
    exact map_fst_update d k v
  · rw [if_neg (fun hc => h ((contains_iff_mem_keys d k).mp hc)), if_neg h]
    simp

theorem mem_keys_dictInsert {α : Type} (d : List (String × α)) (k n : String) (v : α) :
    n ∈ keys (dictInsert d k v) ↔ n ∈ keys d ∨ n = k := by
  rw [keys_dictInsert]
  by_cases h : k ∈ keys d
  · rw [if_pos h]
    constructor
    · exact Or.inl
    · rintro (hn | rfl)
      · exact hn
      · exact h
  · rw [if_neg h]
    simp

theorem find?_key_map_update {α : Type} (d : List (String × α)) (k : String) (v : α)
    (h : k ∈ d.map Prod.fst) :
    (d.map (fun kv => if kv.1 = k then (k, v) else kv)).find? (fun kv => kv.1 == k) =
      some (k, v) := by
  induction d with
  | nil => simp at h
  | cons kv rest ih =>
    by_cases hk : kv.1 = k
    · simp [hk]
    · have hmem : k ∈ rest.map Prod.fst := by
        simp only [List.map_cons, List.mem_cons] at h
        rcases h with h1 | h1
        · exact absurd h1.symm hk
        · exact h1
      have hbeq : (kv.1 == k) = false := by simpa using hk
      simp only [List.map_cons, List.find?]
      rw [if_neg hk]
      simp [hbeq, ih hmem]

theorem find?_key_none {α : Type} (d : List (String × α)) (k : String)
    (h : k ∉ d.map Prod.fst) :
    d.find? (fun kv => kv.1 == k) = Option.none := by
  apply List.find?_eq_none.mpr
  intro kv hkv hbeq
  exact h (List.mem_map.mpr ⟨kv, hkv, eq_of_beq hbeq⟩)

theorem dlookup_dictInsert_self {α : Type} (d : List (String × α)) (k : String) (v : α) :
    dlookup (dictInsert d k v) k = some v := by
  unfold dictInsert dlookup
  by_cases h : k ∈ d.map Prod.fst
  · rw [if_pos ((contains_iff_mem_keys d k).mpr h), find?_key_map_update d k v h]
    rfl
  · rw [if_neg (fun hc => h ((contains_iff_mem_keys d k).mp hc)),
      List.find?_append, find?_key_none d k h]
    simp

theorem find?_key_map_update_ne {α : Type} (d : List (String × α)) (k k' : String) (v : α)
    (hne : k' ≠ k) :
    (d.map (fun kv => if kv.1 = k then (k, v) else kv)).find? (fun kv => kv.1 == k') =
      d.find? (fun kv => kv.1 == k') := by
  induction d with
  | nil => rfl
  | cons kv rest ih =>
    by_cases hk : kv.1 = k
    · have h1 : (k == k') = false :=
        beq_eq_false_iff_ne.mpr (fun he => hne he.symm)
      have h2 : (kv.1 == k') = false :=
        beq_eq_false_iff_ne.mpr (fun he => hne (he.symm.trans hk))
      simp only [List.map_cons, List.find?]
      rw [if_pos hk]
      simp [h1, h2, ih]
    · simp only [List.map_cons, List.find?]
      rw [if_neg hk]
      cases hbeq : (kv.1 == k') <;> simp [hbeq, ih]

theorem dlookup_dictInsert_ne {α : Type} (d : List (String × α)) (k k' : String) (v : α)
    (hne : k' ≠ k) :
    dlookup (dictInsert d k v) k' = dlookup d k' := by
  unfold dictInsert dlookup
  by_cases h : k ∈ d.map Prod.fst
  · rw [if_pos ((contains_iff_mem_keys d k).mpr h), find?_key_map_update_ne d k k' v hne]
  · rw [if_neg (fun hc => h ((contains_iff_mem_keys d k).mp hc)), List.find?_append]
    have hfk : List.find? (fun kv => kv.1 == k') [(k, v)] = Option.none := by
      have h1 : (k == k') = false := beq_eq_false_iff_ne.mpr (fun he => hne he.symm)
      simp [List.find?, h1]
    rw [hfk]
    cases d.find? (fun kv => kv.1 == k') <;> rfl

theorem dlookup_foldlInsert_notmem {α : Type} (ov : List (String × α))
    (d0 : List (String × α)) (k : String) (h : k ∉ ov.map Prod.fst) :
    dlookup (ov.foldl (fun d kv => dictInsert d kv.1 kv.2) d0) k = dlookup d0 k := by
  induction ov generalizing d0 with
  | nil => rfl
  | cons kv rest ih =>
    have h1 : k ≠ kv.1 := fun he => h (by simp [he])
    have h2 : k ∉ rest.map Prod.fst := fun he => h (by simp [he])
    simp only [List.foldl_cons]
    rw [ih (dictInsert d0 kv.1 kv.2) h2, dlookup_dictInsert_ne d0 kv.1 k kv.2 h1]

theorem lastAssoc_eq_none_iff {α : Type} (l : List (String × α)) (k : String) :
    lastAssoc l k = Option.none ↔ k ∉ l.map Prod.fst := by
  induction l with
  | nil => simp [lastAssoc]
  | cons kv rest ih =>
    unfold lastAssoc
    cases hl : lastAssoc rest k with
    | some v =>
      have hmem : k ∈ rest.map Prod.fst := by
        by_contra hn
        rw [ih.mpr hn] at hl
        cases hl
      simp [hl, hmem]
    | none =>
      have hmem := ih.mp hl
      by_cases hk : kv.1 = k
      · simp [hk, hmem, hl]
      · have hks : ¬ k = kv.1 := fun he => hk he.symm
        simp [hk, hmem, hl, hks]

theorem dlookup_foldlInsert_last {α : Type} (ov : List (String × α))
    (d0 : List (String × α)) (k : String) (c : α) (h : lastAssoc ov k = some c) :
    dlookup (ov.foldl (fun d kv => dictInsert d kv.1 kv.2) d0) k = some c := by
  induction ov generalizing d0 with
  | nil => cases h
  | cons kv rest ih =>
    simp only [List.foldl_cons]
    unfold lastAssoc at h
    cases hl : lastAssoc rest k with
    | some v =>
      rw [hl] at h
      cases h
      exact ih (dictInsert d0 kv.1 kv.2) hl
    | none =>
      rw [hl] at h
      by_cases hk : kv.1 = k
      · rw [if_pos hk] at h
        cases h
        rw [dlookup_foldlInsert_notmem rest (dictInsert d0 kv.1 kv.2) k
          ((lastAssoc_eq_none_iff rest k).mp hl)]
        rw [hk]
        exact dlookup_dictInsert_self d0 k kv.2
      · rw [if_neg hk] at h
        cases h

/-- C2 counterexample: for the two-parameter profiler fab (a defaults to 0,
    b defaults to 2), the schema defaults do carry b, yet after the partial
    override providing only a the resolved configuration stored for fab is
    exactly the override: parameter b is gone rather than kept at its
    schema default, refuting the claim as stated. -/
theorem C2_counterexample :
    get_config_defaults [pfAB] = [("fab", [("a", Value.int 0), ("b", Value.int 2)])] ∧
    dlookup (bundledInit "Dummy" [pfAB] ovEx).config "fab" = some [("a", Value.int 1)] ∧
    (dlookup (bundledInit "Dummy" [pfAB] ovEx).config "fab").map
      (fun cfg => dlookup cfg "b") = some Option.none := by
  refine ⟨rfl, rfl, rfl⟩

/-- C2 (amended).  With no overrides the resolved configuration equals the
    schema defaults exactly; a profiler absent from the override mapping
    keeps its defaults; a profiler present in the override mapping gets
    exactly the (last) supplied mapping, wholesale. -/
theorem C2_config_resolution (nm : String) (ps : List ProfilingFunction)
    (ov : List (String × List (String × Value))) (p : String) :
    (bundledInit nm ps []).config = get_config_defaults ps ∧
    (p ∉ ov.map Prod.fst →
      dlookup (bundledInit nm ps ov).config p = dlookup (get_config_defaults ps) p) ∧
    (∀ c, lastAssoc ov p = some c →
      dlookup (bundledInit nm ps ov).config p = some c) := by
  refine ⟨rfl, ?_, ?_⟩
  · intro h
    exact dlookup_foldlInsert_notmem ov (get_config_defaults ps) p h
  · intro c h
    exact dlookup_foldlInsert_last ov (get_config_defaults ps) p c h

/-- Witness for C2: an unmentioned profiler name keeps its default lookup,
    and the overridden profiler resolves to exactly the override. -/
theorem C2_witness :
    dlookup (bundledInit "Dummy" [pfAB] ovEx).config "other" =
      dlookup (get_config_defaults [pfAB]) "other" ∧
    dlookup (bundledInit "Dummy" [pfAB] ovEx).config "fab" =
      some [("a", Value.int 1)] :=
  ⟨(C2_config_resolution "Dummy" [pfAB] ovEx "other").2.1 (by decide),
   (C2_config_resolution "Dummy" [pfAB] ovEx "fab").2.2 [("a", Value.int 1)] (by rfl)⟩

/-! Lemmas about the keys of a dict comprehension. -/

theorem mem_keys_foldlInsert {α : Type} (l : List (String × α))
    (d0 : List (String × α)) (n : String) :
    n ∈ keys (l.foldl (fun d kv => dictInsert d kv.1 kv.2) d0) ↔
      n ∈ keys d0 ∨ n ∈ l.map Prod.fst := by
  induction l generalizing d0 with
  | nil => simp
  | cons kv rest ih =>
    simp only [List.foldl_cons, List.map_cons, List.mem_cons]
    rw [ih (dictInsert d0 kv.1 kv.2), mem_keys_dictInsert]
    tauto

theorem mem_keys_dictOf {α : Type} (l : List (String × α)) (n : String) :
    n ∈ keys (dictOf l) ↔ n ∈ l.map Prod.fst := by
  unfold dictOf
  rw [mem_keys_foldlInsert]
  simp [keys]

theorem keys_foldlInsert_sublist {α : Type} (l : List (String × α))
    (d0 : List (String × α)) :
    (keys (l.foldl (fun d kv => dictInsert d kv.1 kv.2) d0)).Sublist
      (keys d0 ++ l.map Prod.fst) := by
  induction l generalizing d0 with
  | nil => simp
  | cons kv rest ih =>
    simp only [List.foldl_cons, List.map_cons]
    refine (ih (dictInsert d0 kv.1 kv.2)).trans ?_
    rw [keys_dictInsert]
    by_cases h : kv.1 ∈ keys d0
    · rw [if_pos h]
      exact List.Sublist.append_left (List.sublist_cons_self kv.1 (rest.map Prod.fst)) (keys d0)
    · rw [if_neg h, List.append_assoc]
      simp

theorem keys_dictOf_sublist {α : Type} (l : List (String × α)) :
    (keys (dictOf l)).Sublist (l.map Prod.fst) := by
  have h := keys_foldlInsert_sublist l []
  simpa [keys] using h

/-- The key list of a filtered profiler dict. -/
theorem mem_keys_get_profilers (ps : List ProfilingFunction) (t n : String) :
    n ∈ keys (get_profilers ps t) ↔ ∃ p ∈ ps, clauseFor t p = true ∧ pname p = n := by
  unfold get_profilers
  rw [mem_keys_dictOf]
  simp only [List.map_map, List.mem_map, Function.comp, List.mem_filter]
  constructor
  · rintro ⟨p, ⟨hp, hc⟩, rfl⟩
    exact ⟨p, hp, hc, rfl⟩
  · rintro ⟨p, hp, hc, rfl⟩
    exact ⟨p, ⟨hp, hc⟩, rfl⟩

theorem clauseFor_series (p : ProfilingFunction) : clauseFor "series" p = p.is_pseries := rfl

theorem clauseFor_frame (p : ProfilingFunction) : clauseFor "frame" p = p.is_pframe := rfl

theorem clauseFor_any (p : ProfilingFunction) : clauseFor "any" p = true := rfl

/-- C8.  For a profiler list in which every descriptor targets series or
    frame (the invariant ProfilingFunction.make enforces): the frame and
    series name sets together are exactly the any name set; a descriptor
    targeting both appears in both filtered dicts; and each returned dict
    lists its keys in declaration order (a sublist of the profiler list's
    name sequence). -/
theorem C8_filter_exhaustiveness (ps : List ProfilingFunction)
    (hv : ∀ p ∈ ps, p.is_pseries = true ∨ p.is_pframe = true) :
    (∀ n, (n ∈ keys (get_profilers ps "frame") ∨ n ∈ keys (get_profilers ps "series")) ↔
      n ∈ keys (get_profilers ps "any")) ∧
    (∀ p ∈ ps, p.is_pseries = true → p.is_pframe = true →
      pname p ∈ keys (get_profilers ps "frame") ∧
        pname p ∈ keys (get_profilers ps "series")) ∧
    ((keys (get_profilers ps "series")).Sublist (ps.map pname) ∧
     (keys (get_profilers ps "frame")).Sublist (ps.map pname) ∧
     (keys (get_profilers ps "any")).Sublist (ps.map pname)) := by
  refine ⟨?_, ?_, ?_⟩
  · intro n
    simp only [mem_keys_get_profilers, clauseFor_series, clauseFor_frame, clauseFor_any]
    constructor
    · rintro (⟨p, hp, _, rfl⟩ | ⟨p, hp, _, rfl⟩) <;> exact ⟨p, hp, trivial, rfl⟩
    · rintro ⟨p, hp, _, rfl⟩
      rcases hv p hp with hs | hf
      · exact Or.inr ⟨p, hp, hs, rfl⟩
      · exact Or.inl ⟨p, hp, hf, rfl⟩
  · intro p hp hs hf
    constructor
    · exact (mem_keys_get_profilers ps "frame" (pname p)).mpr ⟨p, hp, by rw [clauseFor_frame, hf], rfl⟩
    · exact (mem_keys_get_profilers ps "series" (pname p)).mpr ⟨p, hp, by rw [clauseFor_series, hs], rfl⟩
  · refine ⟨?_, ?_, ?_⟩ <;>
      exact (keys_dictOf_sublist _).trans
        (by rw [List.map_map]
            exact (List.filter_sublist ps).map pname)

/-- Witness for C8 at a list containing a frame-only, a series-only and a
    both-targets profiler. -/
theorem C8_witness :
    ("fboth" ∈ keys (get_profilers ex8 "frame") ∨
      "fboth" ∈ keys (get_profilers ex8 "series")) ↔
    "fboth" ∈ keys (get_profilers ex8 "any") :=
  (C8_filter_exhaustiveness ex8 (by
    intro p hp
    rcases List.mem_cons.mp hp with rfl | hp
    · exact Or.inr rfl
    rcases List.mem_cons.mp hp with rfl | hp
    · exact Or.inl rfl
    rcases List.mem_cons.mp hp with rfl | hp
    · exact Or.inl rfl
    · cases hp)).1 "fboth"

/-- C4.  valid_timeseries fails exactly under the spec's enumerated
    conditions, and on success returns the numeric columns only, with the
    rows (here: the time index) a permutation of the input sorted
    ascending. -/
theorem C4_validator (obj : Data) :
    ((∃ e, valid_timeseries obj = Except.error e) ↔ specValidationFailure obj) ∧
    (∀ v, valid_timeseries obj = Except.ok v →
      ∃ df ts, obj = Data.frame df ∧ df.index = FrameIndex.datetime ts ∧
        v.cols = (df.cols.filter (fun c => c.numeric)).map (fun c => c.name.strVal) ∧
        v.times.Perm ts ∧ List.Sorted (· ≤ ·) v.times) := by
  cases obj with
  | series s =>
    exact ⟨by simp [valid_timeseries, specValidationFailure], by intro v h; cases h⟩
  | other w =>
    exact ⟨by simp [valid_timeseries, specValidationFailure], by intro v h; cases h⟩
  | frame df =>
    simp only [valid_timeseries, specValidationFailure, specFrameFailure]
    by_cases h1 : df.cols.all (fun c => c.name.isStr)
    · rw [if_neg (by simp [h1])]
      cases hidx : df.index with
      | generic n =>
        constructor
        · constructor
          · intro _
            exact Or.inr (Or.inr (Or.inr (Or.inl rfl)))
          · intro _
            by_cases h2 : ((df.cols.filter (fun c => c.numeric)).length == 0 || n == 0) <;>
              simp [h2]
        · intro v hv
          by_cases h2 : ((df.cols.filter (fun c => c.numeric)).length == 0 || n == 0) <;>
            simp [h2] at hv
      | datetime ts =>
        have hnr : df.nrows = ts.length := by unfold RawFrame.nrows; rw [hidx]
        have hlen : (sortTimes ts).length = ts.length :=
          (List.perm_insertionSort (· ≤ ·) ts).length_eq
        simp only []
        by_cases h2 : ((df.cols.filter (fun c => c.numeric)).length == 0 ||
            (sortTimes ts).length == 0)
        · rw [if_pos h2]
          constructor
          · constructor
            · intro _
              rcases Bool.or_eq_true _ _ |>.mp h2 with h3 | h3
              · exact Or.inr (Or.inl (by simpa using h3))
              · refine Or.inr (Or.inr (Or.inl ?_))
                rw [hnr, ← hlen]
                simpa using h3
            · intro _
              exact ⟨_, rfl⟩
          · intro v hv
            cases hv
        · rw [if_neg h2]
          have h2' := h2
          simp only [Bool.or_eq_true, beq_iff_eq, not_or] at h2'
          by_cases h3 : inferredFreq (sortTimes ts)
          · rw [if_neg (by simp [h3])]
            constructor
            · constructor
              · rintro ⟨e, he⟩
                cases he
              · rintro (hf | hf | hf | hf | hf)
                · rw [h1] at hf
                  cases hf
                · exact absurd hf h2'.1
                · rw [hnr, ← hlen] at hf
                  exact absurd hf h2'.2
                · simp [FrameIndex.isDatetime] at hf
                · rcases hf with ⟨ts', hts', hfreq⟩
                  cases hts'
                  rw [h3] at hfreq
                  cases hfreq
            · intro v hv
              cases hv
              refine ⟨df, ts, rfl, hidx, rfl, List.perm_insertionSort (· ≤ ·) ts, ?_⟩
              exact List.sorted_insertionSort (· ≤ ·) ts
          · rw [if_pos (by simp [h3])]
            constructor
            · constructor
              · intro _
                refine Or.inr (Or.inr (Or.inr (Or.inr ⟨ts, rfl, ?_⟩)))
                simpa using h3
              · intro _
                exact ⟨_, rfl⟩
            · intro v hv
              cases hv
    · rw [if_pos (by simpa using h1)]
      constructor
      · constructor
        · intro _
          exact Or.inl (by simpa using h1)
        · intro _
          exact ⟨_, rfl⟩
      · intro v hv
        cases hv

/-- Witness for C4: the fixture frame passes validation and the returned
    table is its numeric columns over the sorted index. -/
theorem C4_witness :
    ∃ df ts, Data.frame rawF = Data.frame df ∧ df.index = FrameIndex.datetime ts ∧
      ValidFrame.cols { cols := ["a"], times := [0, 1, 2] } =
        (df.cols.filter (fun c => c.numeric)).map (fun c => c.name.strVal) ∧
      (ValidFrame.times { cols := ["a"], times := [0, 1, 2] }).Perm ts ∧
      List.Sorted (· ≤ ·) (ValidFrame.times { cols := ["a"], times := [0, 1, 2] }) :=
  (C4_validator (Data.frame rawF)).2 { cols := ["a"], times := [0, 1, 2] } (by rfl)

/-- C5 (code evaluation at the failing input).  Decorating a function whose
    second parameter has no type annotation succeeds: the assert guarding
    annotations compares against inspect.Parameter.empty, which is truthy,
    so the check cannot fire; the unannotated parameter even lands in the
    synthesized Config dataclass. -/
theorem C5_unannotated_param_accepted :
    ProfilingFunction.make fnUnannotatedSecond =
      Except.ok { fn := fnUnannotatedSecond, is_pseries := true, is_pframe := false,
                  configDefaults := [("extra", Value.empty)], parData := "data" } ∧
    Ann.truthy Ann.missing = true := ⟨rfl, rfl⟩

/-! Lemmas about the execution pipeline of profile. -/

theorem exceptMap_ok_length {α β : Type} (f : α → Except String β) :
    ∀ (l : List α) (ys : List β), exceptMap f l = Except.ok ys → ys.length = l.length := by
  intro l
  induction l with
  | nil =>
    intro ys h
    cases h
    rfl
  | cons a as ih =>
    intro ys h
    unfold exceptMap at h
    cases hfa : f a with
    | error e => rw [hfa] at h; cases h
    | ok b =>
      rw [hfa] at h
      cases hrec : exceptMap f as with
      | error e => rw [hrec] at h; cases h
      | ok bs =>
        rw [hrec] at h
        cases h
        simp [ih bs hrec]

theorem schedulerRun_ok_length (times : Nat → Nat × Nat) :
    ∀ (l : List PlanUnit) (i : Nat) (ts : List ExecTriple),
      schedulerRun times i l = Except.ok ts → ts.length = l.length := by
  intro l
  induction l with
  | nil =>
    intro i ts h
    cases h
    rfl
  | cons u us ih =>
    intro i ts h
    unfold schedulerRun at h
    cases hu : runUnit u (times i).1 (times i).2 with
    | error e => rw [hu] at h; cases h
    | ok t =>
      rw [hu] at h
      cases hrec : schedulerRun times (i + 1) us with
      | error e => rw [hrec] at h; cases h
      | ok ts' =>
        rw [hrec] at h
        cases h
        simp [ih (i + 1) ts' hrec]

theorem schedulerRun_ok_get (times : Nat → Nat × Nat) :
    ∀ (l : List PlanUnit) (i : Nat) (ts : List ExecTriple),
      schedulerRun times i l = Except.ok ts →
      ∀ (j : Nat) (h1 : j < l.length) (h2 : j < ts.length),
        runUnit l[j] (times (i + j)).1 (times (i + j)).2 = Except.ok ts[j] := by
  intro l
  induction l with
  | nil =>
    intro i ts h j h1 h2
    cases h1
  | cons u us ih =>
    intro i ts h j h1 h2
    unfold schedulerRun at h
    cases hu : runUnit u (times i).1 (times i).2 with
    | error e => rw [hu] at h; cases h
    | ok t =>
      rw [hu] at h
      cases hrec : schedulerRun times (i + 1) us with
      | error e => rw [hrec] at h; cases h
      | ok ts' =>
        rw [hrec] at h
        cases h
        cases j with
        | zero => simpa using hu
        | succ j' =>
          have h1' : j' < us.length := Nat.lt_of_succ_lt_succ h1
          have h2' : j' < ts'.length := Nat.lt_of_succ_lt_succ h2
          have heq : i + (j' + 1) = (i + 1) + j' := by omega
          have hrec2 := ih (i + 1) ts' hrec j' h1' h2'
          simp only [List.getElem_cons_succ, heq]
          exact hrec2

theorem runUnit_ok_succeeded (u : PlanUnit) (t0 t1 : Nat) (tr : ExecTriple)
    (h : runUnit u t0 t1 = Except.ok tr) :
    tr.row.Succeeded = (u.1.call u.2.1 u.2.2 t0 t1).success := by
  unfold runUnit at h
  simp only [] at h
  cases hs : (u.1.call u.2.1 u.2.2 t0 t1).scope with
  | none => rw [hs] at h; cases h
  | some sc =>
    rw [hs] at h
    cases ht : (u.1.call u.2.1 u.2.2 t0 t1).target with
    | none => rw [ht] at h; cases h
    | some tg =>
      rw [ht] at h
      cases h
      rfl

theorem length_flatMap_const {α β : Type} (l : List α) (f : α → List β) (k : Nat)
    (h : ∀ a, (f a).length = k) : (l.flatMap f).length = l.length * k := by
  induction l with
  | nil => simp
  | cons a as ih =>
    simp only [List.flatMap_cons, List.length_append, ih, List.length_cons, h a]
    ring

theorem planFor_ok_length (bp : BundledProfiler) (df : ValidFrame)
    (plan : List PlanUnit) (h : planFor bp df = Except.ok plan) :
    plan.length =
      (get_profilers bp.profilers "frame").length +
        (get_profilers bp.profilers "series").length * df.cols.length := by
  unfold planFor at h
  cases hf : exceptMap (fun np =>
      match dlookup bp.config np.1 with
      | some c => Except.ok ((np.2, Data.frame df.toRaw, c) : PlanUnit)
      | Option.none => Except.error "KeyError") (get_profilers bp.profilers "frame") with
  | error e => rw [hf] at h; cases h
  | ok fps =>
    rw [hf] at h
    cases hs : exceptMap (fun np =>
        match dlookup bp.config np.1 with
        | some c => Except.ok (np.2, c)
        | Option.none => Except.error "KeyError") (get_profilers bp.profilers "series") with
    | error e => rw [hs] at h; cases h
    | ok sps =>
      rw [hs] at h
      cases h
      rw [List.length_append, exceptMap_ok_length _ _ _ hf,
        length_flatMap_const sps _ df.cols.length (fun a => by simp),
        exceptMap_ok_length _ _ _ hs]

/-- C9.  Whenever profile returns (rather than raising), the bundle-level
    result has success true, truthiness true and no exception, regardless
    of how the individual units fared: those fields are the ones set by
    ProfileResult construction and profile never updates them. -/
theorem C9_bundle_success (bp : BundledProfiler) (obj : Data)
    (times : Nat → Nat × Nat) (T0 T1 : Nat) (r : BundledResult)
    (h : bp.profile obj times T0 T1 = Except.ok r) :
    r.success = true ∧ r.toBool = true ∧ r.exception = Option.none := by
  unfold BundledProfiler.profile at h
  cases hdf : valid_timeseries obj with
  | error e => rw [hdf] at h; simp at h
  | ok df =>
    rw [hdf] at h
    simp only [] at h
    cases hplan : planFor bp df with
    | error e => rw [hplan] at h; simp at h
    | ok plan =>
      rw [hplan] at h
      simp only [] at h
      cases hex : schedulerRun times 0 plan with
      | error e => rw [hex] at h; simp at h
      | ok executed =>
        rw [hex] at h
        simp only [] at h
        cases hcol : collectTriples [] (dictOf (df.cols.map (fun c => (c, [])))) executed with
        | error e => rw [hcol] at h; simp at h
        | ok frse =>
          rw [hcol] at h
          simp only [] at h
          cases h
          exact ⟨rfl, rfl, rfl⟩

/-- Witness for C9 on the fixture run, in which one unit fails. -/
theorem C9_witness :
    rEx.success = true ∧ rEx.toBool = true ∧ rEx.exception = Option.none :=
  C9_bundle_success bpEx (Data.frame rawF) timesEx 100 101 rEx (by rfl)

/-- C3.  For a run of profile over a valid table, the ledger has exactly
    one row per planned unit, i.e. (number of frame-scoped profilers) +
    (number of series-scoped profilers) * (number of columns), and the
    Succeeded entry of each row equals the success field of the
    ProfileResult of the corresponding unit, failed units included. -/
theorem C3_ledger_completeness (bp : BundledProfiler) (obj : Data)
    (times : Nat → Nat × Nat) (T0 T1 : Nat) (df : ValidFrame)
    (plan : List PlanUnit) (r : BundledResult)
    (hdf : valid_timeseries obj = Except.ok df)
    (hplan : planFor bp df = Except.ok plan)
    (h : bp.profile obj times T0 T1 = Except.ok r) :
    r.result.exec_details.length =
      (get_profilers bp.profilers "frame").length +
        (get_profilers bp.profilers "series").length * df.cols.length ∧
    ∀ (j : Nat) (h1 : j < plan.length) (h2 : j < r.result.exec_details.length),
      (r.result.exec_details[j]).Succeeded =
        ((plan[j]).1.call (plan[j]).2.1 (plan[j]).2.2 (times j).1 (times j).2).success := by
  unfold BundledProfiler.profile at h
  rw [hdf] at h
  simp only [] at h
  rw [hplan] at h
  simp only [] at h
  cases hex : schedulerRun times 0 plan with
  | error e => rw [hex] at h; simp at h
  | ok executed =>
    rw [hex] at h
    simp only [] at h
    cases hcol : collectTriples [] (dictOf (df.cols.map (fun c => (c, [])))) executed with
    | error e => rw [hcol] at h; simp at h
    | ok frse =>
      rw [hcol] at h
      simp only [] at h
      cases h
      have hlen : executed.length = plan.length := schedulerRun_ok_length times plan 0 executed hex
      constructor
      · simpa [hlen] using planFor_ok_length bp df plan hplan
      · intro j h1 h2
        have h2' : j < executed.length := by simpa using h2
        have hget := schedulerRun_ok_get times plan 0 executed hex j h1 h2'
        rw [Nat.zero_add] at hget
        have hsucc := runUnit_ok_succeeded plan[j] (times j).1 (times j).2 executed[j] hget
        simpa [List.getElem_map] using hsucc

/-- Witness for C3 on the fixture run: two planned units, two ledger rows,
    matching success flags (the second unit failed). -/
theorem C3_witness :
    rEx.result.exec_details.length =
      (get_profilers bpEx.profilers "frame").length +
        (get_profilers bpEx.profilers "series").length *
          (ValidFrame.cols { cols := ["a"], times := [0, 1, 2] }).length ∧
    (rEx.result.exec_details[1]).Succeeded =
      ((planEx[1]).1.call (planEx[1]).2.1 (planEx[1]).2.2
        (timesEx 1).1 (timesEx 1).2).success :=
  ⟨(C3_ledger_completeness bpEx (Data.frame rawF) timesEx 100 101
      { cols := ["a"], times := [0, 1, 2] } planEx rEx (by rfl) (by rfl) (by rfl)).1,
   (C3_ledger_completeness bpEx (Data.frame rawF) timesEx 100 101
      { cols := ["a"], times := [0, 1, 2] } planEx rEx (by rfl) (by rfl) (by rfl)).2
     1 (by decide) (by decide)⟩

end Tslumen
